import Mathlib

/-!
Shallow embedding of `src/src/lib/main.c` of piot/conclave-client-cli:
the interactive session orchestrator (tick loop, lifecycle gating,
version-diff renderer, command dispatch and the command handlers).

External collaborator libraries (guise identity client, conclave
coordination client, redline line console, clash command registry) are
modelled only through the narrow interfaces the orchestrator consumes:
observed version counters and payload snapshots, an advance-result code,
"line ready" polling, and a parse-result code.
-/

namespace Conclave

/-- The observed slice of `ClvClient` (the Coordination Session) that
`outputChangesIfAny` reads: the three version counters
(`pingResponseOptionsVersion`, `roomCreateVersion`,
`listRoomsOptionsVersion`, each a `uint8_t` in C) and, abstractly, the
payload snapshot attached to each kind (room-info member list,
room-create result, room-list result), represented by a `Nat` identifier. -/
structure ClvClientView where
  pingResponseOptionsVersion : Nat
  roomCreateVersion : Nat
  listRoomsOptionsVersion : Nat
  pingPayload : Nat
  roomCreatePayload : Nat
  roomListPayload : Nat
deriving DecidableEq

/-- The orchestrator state `App` from main.c lines 49-57: the `secret`
string, the `hasStartedConclave` lifecycle flag, and the three
last-shown version counters (`uint8_t` in C).  The embedded `ClvClientUdp`
is modelled separately as `ClvClientView`; the log handle carries no
behaviour. -/
structure App where
  secret : String
  hasStartedConclave : Bool
  lastShownPingResponseVersion : Nat
  lastShownRoomCreateVersion : Nat
  lastShownRoomListVersion : Nat
deriving DecidableEq

/-- Struct `RoomCreateCmd` (main.c lines 59-62): fields filled by the clash
option parser from `--name` / `--verbose`. -/
structure RoomCreateCmd where
  verbose : Int
  name : String
deriving DecidableEq

/-- Struct `RoomJoinCmd` (main.c lines 64-67). `roomId` is a `uint64_t`. -/
structure RoomJoinCmd where
  verbose : Int
  roomId : Nat
deriving DecidableEq

/-- Struct `RoomListCmd` (main.c lines 69-72). `applicationId` is `uint64_t`,
`maximumCount` is a C `int`. -/
structure RoomListCmd where
  applicationId : Nat
  maximumCount : Int
deriving DecidableEq

/-- Struct `PingCmd` (main.c lines 74-77). Both fields are C `int`. -/
structure PingCmd where
  verbose : Int
  knowledge : Int
deriving DecidableEq

/-- Request options `ClvSerializeRoomCreateOptions` as filled in `onRoomCreate`
(main.c lines 89-93). -/
structure ClvSerializeRoomCreateOptions where
  applicationId : Nat
  maxNumberOfPlayers : Nat
  flags : Nat
  name : String
deriving DecidableEq

/-- Request options `ClvSerializeListRoomsOptions` as filled in `onRoomList`
(main.c lines 114-117). -/
structure ClvSerializeListRoomsOptions where
  applicationId : Nat
  maximumCount : Nat
deriving DecidableEq

/-- One outbound request to the Coordination Session: the three
fire-and-forget calls a handler can make
(`clvClientUdpCreateRoom`, `clvClientListRooms`, `clvClientPing`). -/
inductive Request
  | createRoom (o : ClvSerializeRoomCreateOptions)
  | listRooms (o : ClvSerializeListRoomsOptions)
  | ping (knowledge : Nat)
deriving DecidableEq

/-- One write to the handler's output sink (`clashResponseWritecf` /
`clashResponseWritef`), kept symbolic: which data reached the sink,
not the byte-level formatting. `notStartedNotice` is the
"conclave not started yet" line. -/
inductive OutWrite
  | roomCreateEcho (secret name : String) (verbose : Int)
  | roomJoinEcho (roomId : Nat)
  | roomListRequested
  | notStartedNotice
deriving DecidableEq

/-- The observable effects of one handler invocation: the sequence of
output-sink writes and the sequence of outbound requests, in order. -/
structure HandlerResult where
  output : List OutWrite
  requests : List Request
deriving DecidableEq

/-- Handler `onRoomCreate` (main.c lines 79-96): echoes secret, parsed name and
verbose flag to the response sink, then unconditionally sends a
create-room request with the hard-coded options
`{applicationId = 1, maxNumberOfPlayers = 8, flags = 0, name = "secret room"}`.
There is no `hasStartedConclave` check in this handler. -/
def onRoomCreate (self : App) (data : RoomCreateCmd) : HandlerResult :=
  { output := [OutWrite.roomCreateEcho self.secret data.name data.verbose]
    requests := [Request.createRoom
      { applicationId := 1, maxNumberOfPlayers := 8, flags := 0, name := "secret room" }] }

/-- Handler `onRoomJoin` (main.c lines 98-104): echoes the parsed room id to the
response sink and returns; it sends no request to the Coordination
Session. -/
def onRoomJoin (self : App) (data : RoomJoinCmd) : HandlerResult :=
  { output := [OutWrite.roomJoinEcho data.roomId]
    requests := [] }

/-- Handler `onRoomList` (main.c lines 106-120): writes "room list requested",
then unconditionally sends a list-rooms request with the parsed
application id and `(uint8_t)data->maximumCount` (C int truncated to
eight bits, i.e. mod 256 of its twos-complement value). -/
def onRoomList (self : App) (data : RoomListCmd) : HandlerResult :=
  { output := [OutWrite.roomListRequested]
    requests := [Request.listRooms
      { applicationId := data.applicationId
        maximumCount := (data.maximumCount % (256 : Int)).toNat }] }

/-- Handler `onPing` (main.c lines 135-147): if `hasStartedConclave` is false,
writes the "conclave not started yet" notice and returns without any
request; otherwise sends one ping with `(uint64_t)data->knowledge`. -/
def onPing (self : App) (data : PingCmd) : HandlerResult :=
  if !self.hasStartedConclave then
    { output := [OutWrite.notStartedNotice], requests := [] }
  else
    { output := [], requests := [Request.ping ((data.knowledge % ((2 : Int) ^ 64)).toNat)] }

/-- The three tracked response kinds, in the fixed order
`outputChangesIfAny` checks them. -/
inductive Kind
  | pingRoomInfo
  | roomCreate
  | roomList
deriving DecidableEq

/-- One erase/render/restore cycle performed by `outputChangesIfAny`:
`redlineEditRemove`, the kind-specific printf rendering of the current
payload, `drawPrompt` and `redlineEditBringback`. -/
structure Render where
  kind : Kind
  payload : Nat
deriving DecidableEq

/-- The ping/room-info block of `outputChangesIfAny`
(main.c lines 202-220): if `pingResponseOptionsVersion` differs from
`lastShownPingResponseVersion` (exact inequality), perform one
erase/render/restore cycle showing the current room-info payload and
set the last-shown counter to the current one. -/
def pingBlock (c : ClvClientView) (app : App) : List Render × App :=
  if c.pingResponseOptionsVersion ≠ app.lastShownPingResponseVersion then
    ([{ kind := Kind.pingRoomInfo, payload := c.pingPayload }],
      { app with lastShownPingResponseVersion := c.pingResponseOptionsVersion })
  else ([], app)

/-- The room-create block of `outputChangesIfAny`
(main.c lines 222-231), same discipline for `roomCreateVersion`. -/
def createBlock (c : ClvClientView) (app : App) : List Render × App :=
  if c.roomCreateVersion ≠ app.lastShownRoomCreateVersion then
    ([{ kind := Kind.roomCreate, payload := c.roomCreatePayload }],
      { app with lastShownRoomCreateVersion := c.roomCreateVersion })
  else ([], app)

/-- The room-list block of `outputChangesIfAny`
(main.c lines 233-247), same discipline for `listRoomsOptionsVersion`. -/
def listBlock (c : ClvClientView) (app : App) : List Render × App :=
  if c.listRoomsOptionsVersion ≠ app.lastShownRoomListVersion then
    ([{ kind := Kind.roomList, payload := c.roomListPayload }],
      { app with lastShownRoomListVersion := c.listRoomsOptionsVersion })
  else ([], app)

/-- Renderer `outputChangesIfAny` (main.c lines 197-248): the three blocks run
sequentially in the fixed order ping/room-info, room-create, room-list,
each mutating `app`'s last-shown counters; the returned list collects
the erase/render/restore cycles in the order performed. -/
def outputChangesIfAny (c : ClvClientView) (app : App) : List Render × App :=
  let p := pingBlock c app
  let q := createBlock c p.2
  let r := listBlock c q.2
  (p.1 ++ q.1 ++ r.1, r.2)

/-- One effect of dispatching a completed input line
(main.c lines 311-334): setting the quit flag via `break`, rendering the
help tree via `clashUsageToStream`, a handler invocation performed
inside `clashParseString` (nonnegative parse result), or the
"unknown command %d" diagnostic (negative parse result, no handler). -/
inductive DispatchEffect
  | quitSet
  | helpRendered
  | handlerInvoked (result : Int)
  | diagnosticPrinted (result : Int)
deriving DecidableEq

/-- The per-line dispatch of main.c lines 311-334.  `textInput` is the
line returned by `redlineEditLine`; it is compared by `tc_str_equal`
(exact string equality, no trimming) against "quit" and then "help";
otherwise `clashParseString` resolves it against the command registry.
The registry is the external clash collaborator, abstracted as the
parse-result function `clashParseString : String → Int` with the
collaborator contract that a nonnegative result means the resolved
handler was invoked exactly once and a negative result means no handler
ran. -/
def dispatchLine (clashParseString : String → Int) (textInput : String) :
    List DispatchEffect :=
  if textInput = "quit" then [DispatchEffect.quitSet]
  else if textInput = "help" then [DispatchEffect.helpRendered]
  else
    let parseResult := clashParseString textInput
    if parseResult < 0 then [DispatchEffect.diagnosticPrinted parseResult]
    else [DispatchEffect.handlerInvoked parseResult]

/-- The environment's contribution to one iteration of the main loop
(main.c lines 292-340): the identity state observed after
`guiseClientUdpUpdate` (`loggedIn` iff `GuiseClientStateLoggedIn`), the
result `clvClientUdpUpdate` would return if called, the completed line
if `redlineEditUpdate` returned -1 (`none` while still editing), and
whether SIGINT arrived during this iteration (the handler sets
`g_quit = 1`, observed at the next loop-condition check). -/
structure TickInput where
  loggedIn : Bool
  advanceResult : Int
  line : Option String
  interrupt : Bool
deriving DecidableEq

/-- The loop-relevant mutable state of `main`: the `g_quit` flag and
`app.hasStartedConclave`, plus ghost counters observing how many times
`clvClientUdpInit` (constructions), `outputChangesIfAny`
(rendererCalls) and the non-quit line processing (linesDispatched)
have run. -/
structure LoopState where
  gQuit : Bool
  hasStartedConclave : Bool
  constructions : Nat
  rendererCalls : Nat
  linesDispatched : Nat
deriving DecidableEq

/-- State at loop entry (main.c lines 283-291):
`hasStartedConclave = false`, `g_quit = 0`, no calls made yet. -/
def loopInit : LoopState :=
  { gQuit := false, hasStartedConclave := false
    constructions := 0, rendererCalls := 0, linesDispatched := 0 }

/-- How one loop iteration ends: continue to the next iteration, return
`updateResult` from inside the loop (main.c line 304, skipping
`redlineEditClose`), or `break` out on "quit" (main.c line 313). -/
inductive StepResult
  | cont (s : LoopState)
  | fatalExit (code : Int) (s : LoopState)
  | gracefulExit (s : LoopState)
deriving DecidableEq

/-- The state carried by a `StepResult`. -/
def StepResult.state : StepResult → LoopState
  | StepResult.cont s => s
  | StepResult.fatalExit _ s => s
  | StepResult.gracefulExit s => s

/-- The line-console part of an iteration (main.c lines 308-339): if a
line completed, "quit" breaks out of the loop and anything else is
processed (help or registry dispatch) exactly once; a pending SIGINT is
visible in `g_quit` by the end of the iteration. -/
def lineStep (s : LoopState) (t : TickInput) : StepResult :=
  match t.line with
  | none => StepResult.cont { s with gQuit := s.gQuit || t.interrupt }
  | some line =>
    if line = "quit" then StepResult.gracefulExit s
    else StepResult.cont
      { s with linesDispatched := s.linesDispatched + 1, gQuit := s.gQuit || t.interrupt }

/-- One full iteration of the `while (!g_quit)` loop body
(main.c lines 292-340): advance identity; if not yet started and
identity is logged in, run `clvClientUdpInit` once and set
`hasStartedConclave`; if started, advance coordination — a negative
result returns it immediately (before any rendering or line handling)
— otherwise call `outputChangesIfAny`; finally poll the line console. -/
def tickStep (s : LoopState) (t : TickInput) : StepResult :=
  let s1 :=
    if !s.hasStartedConclave && t.loggedIn then
      { s with hasStartedConclave := true, constructions := s.constructions + 1 }
    else s
  if s1.hasStartedConclave then
    if t.advanceResult < 0 then StepResult.fatalExit t.advanceResult s1
    else lineStep { s1 with rendererCalls := s1.rendererCalls + 1 } t
  else lineStep s1 t

/-- How a run of the loop over a finite window of tick inputs ends:
`finished exitCode consoleClosed s` when `main` returned (the loop
exited via `break`/`g_quit`, then `redlineEditClose` ran and 0 was
returned, or the fatal in-loop `return updateResult` ran without
closing the console), or `pending s` when the window was exhausted with
the loop still running. -/
inductive RunOutcome
  | finished (exitCode : Int) (consoleClosed : Bool) (s : LoopState)
  | pending (s : LoopState)
deriving DecidableEq

/-- The main loop (main.c lines 292-344) over a finite list of tick
inputs: `g_quit` is checked at the top of each iteration; leaving the
loop normally runs `redlineEditClose` and returns 0. -/
def runLoop (s : LoopState) : List TickInput → RunOutcome
  | [] => if s.gQuit then RunOutcome.finished 0 true s else RunOutcome.pending s
  | t :: ts =>
    if s.gQuit then RunOutcome.finished 0 true s
    else
      match tickStep s t with
      | StepResult.cont s' => runLoop s' ts
      | StepResult.fatalExit c s' => RunOutcome.finished c false s'
      | StepResult.gracefulExit s' => RunOutcome.finished 0 true s'

/-- The sequence of `LoopState`s reached while running the loop over a
window of tick inputs, starting with the entry state (used to state
invariants over every reachable state). -/
def loopStates (s : LoopState) : List TickInput → List LoopState
  | [] => [s]
  | t :: ts =>
    if s.gQuit then [s]
    else
      match tickStep s t with
      | StepResult.cont s' => s :: loopStates s' ts
      | StepResult.fatalExit _ s' => [s, s']
      | StepResult.gracefulExit s' => [s, s']

/-- The Coordination Session's activity between two consecutive
renderer calls: how many times each version counter was incremented
(each increment replaces the payload; the field gives the payload left
in place after the last replacement of that kind).  This models the
collaborator contract of spec section 3: the counter increments on
every update. -/
structure TickIncs where
  pingIncs : Nat
  createIncs : Nat
  listIncs : Nat
  pingPayload : Nat
  createPayload : Nat
  listPayload : Nat
deriving DecidableEq

/-- Apply one inter-tick batch of collaborator updates to the observed
client state.  The counters are `uint8_t` in C, so each increment wraps
mod 256; the payload of a kind changes only when that kind was updated
at least once. -/
def applyIncs (c : ClvClientView) (t : TickIncs) : ClvClientView :=
  { pingResponseOptionsVersion := (c.pingResponseOptionsVersion + t.pingIncs) % 256
    roomCreateVersion := (c.roomCreateVersion + t.createIncs) % 256
    listRoomsOptionsVersion := (c.listRoomsOptionsVersion + t.listIncs) % 256
    pingPayload := if t.pingIncs = 0 then c.pingPayload else t.pingPayload
    roomCreatePayload := if t.createIncs = 0 then c.roomCreatePayload else t.createPayload
    roomListPayload := if t.listIncs = 0 then c.roomListPayload else t.listPayload }

/-- Run the orchestrator's render loop over a window of ticks: each
tick the collaborator applies its updates, then `outputChangesIfAny`
runs once (as in main.c line 306).  Returns all erase/render/restore
cycles in order, the final observed client state and the final `App`. -/
def runRenderTicks (c : ClvClientView) (app : App) :
    List TickIncs → List Render × ClvClientView × App
  | [] => ([], c, app)
  | t :: ts =>
    let c' := applyIncs c t
    let ra := outputChangesIfAny c' app
    let rest := runRenderTicks c' ra.2 ts
    (ra.1 ++ rest.1, rest.2)

/-- Specification-side description of the renders a synced renderer
must produce over a window of ticks: per tick, one render per kind
whose counter value changed, carrying the then-current payload, in the
fixed order ping/room-info, room-create, room-list.  Defined purely
from the version trajectory, with no renderer state. -/
def changesList (c : ClvClientView) : List TickIncs → List Render
  | [] => []
  | t :: ts =>
    let c' := applyIncs c t
    ((if c'.pingResponseOptionsVersion ≠ c.pingResponseOptionsVersion then
        [{ kind := Kind.pingRoomInfo, payload := c'.pingPayload }] else []) ++
     (if c'.roomCreateVersion ≠ c.roomCreateVersion then
        [{ kind := Kind.roomCreate, payload := c'.roomCreatePayload }] else []) ++
     (if c'.listRoomsOptionsVersion ≠ c.listRoomsOptionsVersion then
        [{ kind := Kind.roomList, payload := c'.roomListPayload }] else [])) ++
    changesList c' ts

/-- Total number of distinct version-counter increments performed by
the collaborator over a window of ticks. -/
def totalIncrements (ts : List TickIncs) : Nat :=
  (ts.map (fun t => t.pingIncs + t.createIncs + t.listIncs)).sum

/-- Number of renders performed for kind `k` in a list of
erase/render/restore cycles. -/
def rendersFor (k : Kind) (rs : List Render) : Nat :=
  (rs.filter (fun r => r.kind == k)).length

/-- Observed client state right after `clvClientUdpInit`: all version
counters and payloads at zero. -/
def clvInit : ClvClientView :=
  { pingResponseOptionsVersion := 0, roomCreateVersion := 0, listRoomsOptionsVersion := 0
    pingPayload := 0, roomCreatePayload := 0, roomListPayload := 0 }

/-- The `App` as initialized in main.c lines 283-290, before login. -/
def appInit : App :=
  { secret := "working", hasStartedConclave := false
    lastShownPingResponseVersion := 0, lastShownRoomCreateVersion := 0
    lastShownRoomListVersion := 0 }

/-- The `App` after the conclave client has been started. -/
def appStarted : App :=
  { appInit with hasStartedConclave := true }

/-- The payload snapshot the client currently holds for a kind. -/
def kindPayload (c : ClvClientView) : Kind → Nat
  | Kind.pingRoomInfo => c.pingPayload
  | Kind.roomCreate => c.roomCreatePayload
  | Kind.roomList => c.roomListPayload

/-- Normal form of one `outputChangesIfAny` call: the cycles are, in
the fixed order, one per kind whose current counter differs from the
last-shown one, each carrying the current payload, and all three
last-shown counters end up equal to the current ones. -/
theorem outputChangesIfAny_eq (c : ClvClientView) (app : App) :
    outputChangesIfAny c app =
      ((if c.pingResponseOptionsVersion ≠ app.lastShownPingResponseVersion then
          [{ kind := Kind.pingRoomInfo, payload := c.pingPayload }] else []) ++
       (if c.roomCreateVersion ≠ app.lastShownRoomCreateVersion then
          [{ kind := Kind.roomCreate, payload := c.roomCreatePayload }] else []) ++
       (if c.listRoomsOptionsVersion ≠ app.lastShownRoomListVersion then
          [{ kind := Kind.roomList, payload := c.roomListPayload }] else []),
       { app with lastShownPingResponseVersion := c.pingResponseOptionsVersion
                  lastShownRoomCreateVersion := c.roomCreateVersion
                  lastShownRoomListVersion := c.listRoomsOptionsVersion }) := by
  cases app
  unfold outputChangesIfAny pingBlock createBlock listBlock
  split_ifs <;> simp_all

/-- C9: every invocation of the room-create handler sends the constant
request `{applicationId = 1, maxNumberOfPlayers = 8, flags = 0,
name = "secret room"}` to the Coordination Session, independent of the
parsed `--name` and `--verbose` options; the parsed name reaches only
the output-sink echo, never the request. -/
theorem roomCreate_request_constant (app : App) (data : RoomCreateCmd) :
    (onRoomCreate app data).requests
      = [Request.createRoom
          { applicationId := 1, maxNumberOfPlayers := 8, flags := 0, name := "secret room" }] ∧
    (onRoomCreate app data).output
      = [OutWrite.roomCreateEcho app.secret data.name data.verbose] :=
  ⟨rfl, rfl⟩

/-- C1 counterexample: invoked while coordination is not started
(`hasStartedConclave = false`), the room-create handler still issues
one outbound request and never writes the "not started yet" notice,
refuting the claim that every coordination-dependent handler is gated. -/
theorem roomCreate_ungated_cex :
    (onRoomCreate appInit { verbose := 0, name := "x" }).requests.length = 1 ∧
    OutWrite.notStartedNotice ∉ (onRoomCreate appInit { verbose := 0, name := "x" }).output ∧
    appInit.hasStartedConclave = false := by
  decide

/-- C1 amended: among the coordination-dependent handlers only ping
checks `hasStartedConclave`; invoked while it is false, ping writes the
"not started yet" notice and issues zero requests, while room create
and room list still issue their one request each with no notice, and
room join issues no request at all. -/
theorem handlers_gating (app : App) (h : app.hasStartedConclave = false)
    (c : RoomCreateCmd) (j : RoomJoinCmd) (l : RoomListCmd) (p : PingCmd) :
    (onPing app p).output = [OutWrite.notStartedNotice] ∧
    (onPing app p).requests = [] ∧
    (onRoomCreate app c).requests.length = 1 ∧
    OutWrite.notStartedNotice ∉ (onRoomCreate app c).output ∧
    (onRoomList app l).requests.length = 1 ∧
    OutWrite.notStartedNotice ∉ (onRoomList app l).output ∧
    (onRoomJoin app j).requests = [] ∧
    OutWrite.notStartedNotice ∉ (onRoomJoin app j).output := by
  simp [onPing, onRoomCreate, onRoomList, onRoomJoin, h]

/-- Witness for `handlers_gating` at a concrete not-started state. -/
theorem handlers_gating_witness :
    (onPing appInit { verbose := 0, knowledge := 0 }).requests = [] :=
  (handlers_gating appInit rfl { verbose := 0, name := "x" } { verbose := 0, roomId := 1 }
    { applicationId := 42, maximumCount := 8 } { verbose := 0, knowledge := 0 }).2.1

/-- C2 counterexample: the room-join handler issues zero outbound
requests, not exactly one, even with coordination started. -/
theorem roomJoin_no_request_cex :
    (onRoomJoin appStarted { verbose := 0, roomId := 5 }).requests.length ≠ 1 := by
  decide

/-- C2 amended: per invocation, room create and room list issue exactly
one outbound request each; ping issues exactly one when coordination is
started and zero otherwise; room join issues zero.  (All are
fire-and-forget: the handlers return without waiting for a response.) -/
theorem handlers_request_counts (app : App)
    (c : RoomCreateCmd) (j : RoomJoinCmd) (l : RoomListCmd) (p : PingCmd) :
    (onRoomCreate app c).requests.length = 1 ∧
    (onRoomList app l).requests.length = 1 ∧
    (app.hasStartedConclave = true → (onPing app p).requests.length = 1) ∧
    (app.hasStartedConclave = false → (onPing app p).requests.length = 0) ∧
    (onRoomJoin app j).requests.length = 0 := by
  refine ⟨rfl, rfl, ?_, ?_, rfl⟩ <;> intro h <;> simp [onPing, h]

/-- Witness for `handlers_request_counts` at a concrete started state. -/
theorem handlers_request_counts_witness :
    (onPing appStarted { verbose := 0, knowledge := 3 }).requests.length = 1 :=
  (handlers_request_counts appStarted { verbose := 0, name := "x" } { verbose := 0, roomId := 1 }
    { applicationId := 42, maximumCount := 8 } { verbose := 0, knowledge := 3 }).2.2.1 rfl

/-- C4: in any renderer call, an erase/render/restore cycle happens for
a kind if and only if that kind's current counter differs from the
last-shown one under exact inequality (so a decreased or wrapped
counter also triggers); in particular, when no counter changed, zero
cycles are performed. -/
theorem render_iff_version_ne (c : ClvClientView) (app : App) :
    (rendersFor Kind.pingRoomInfo (outputChangesIfAny c app).1
      = if c.pingResponseOptionsVersion ≠ app.lastShownPingResponseVersion then 1 else 0) ∧
    (rendersFor Kind.roomCreate (outputChangesIfAny c app).1
      = if c.roomCreateVersion ≠ app.lastShownRoomCreateVersion then 1 else 0) ∧
    (rendersFor Kind.roomList (outputChangesIfAny c app).1
      = if c.listRoomsOptionsVersion ≠ app.lastShownRoomListVersion then 1 else 0) ∧
    ((c.pingResponseOptionsVersion = app.lastShownPingResponseVersion ∧
      c.roomCreateVersion = app.lastShownRoomCreateVersion ∧
      c.listRoomsOptionsVersion = app.lastShownRoomListVersion) →
      (outputChangesIfAny c app).1 = []) := by
  rw [outputChangesIfAny_eq]
  refine ⟨?_, ?_, ?_, ?_⟩
  · split_ifs <;> simp_all [rendersFor]
  · split_ifs <;> simp_all [rendersFor]
  · split_ifs <;> simp_all [rendersFor]
  · rintro ⟨h1, h2, h3⟩; simp [h1, h2, h3]

/-- Witness for `render_iff_version_ne`: with all counters unchanged,
the renderer performs zero cycles. -/
theorem render_iff_version_ne_witness :
    (outputChangesIfAny clvInit appStarted).1 = [] :=
  (render_iff_version_ne clvInit appStarted).2.2.2 ⟨rfl, rfl, rfl⟩

/-- C10: in a single renderer call at most one erase/render/restore
cycle happens per kind, each cycle shows the client's current (latest)
payload for its kind, and on return all three last-shown counters equal
the client's current counters (set directly, regardless of how far the
counter advanced since the previous call). -/
theorem render_latest_payload_once (c : ClvClientView) (app : App) :
    rendersFor Kind.pingRoomInfo (outputChangesIfAny c app).1 ≤ 1 ∧
    rendersFor Kind.roomCreate (outputChangesIfAny c app).1 ≤ 1 ∧
    rendersFor Kind.roomList (outputChangesIfAny c app).1 ≤ 1 ∧
    (∀ r ∈ (outputChangesIfAny c app).1, r.payload = kindPayload c r.kind) ∧
    (outputChangesIfAny c app).2.lastShownPingResponseVersion = c.pingResponseOptionsVersion ∧
    (outputChangesIfAny c app).2.lastShownRoomCreateVersion = c.roomCreateVersion ∧
    (outputChangesIfAny c app).2.lastShownRoomListVersion = c.listRoomsOptionsVersion := by
  rw [outputChangesIfAny_eq]
  refine ⟨?_, ?_, ?_, ?_, rfl, rfl, rfl⟩
  · split_ifs <;> simp_all [rendersFor]
  · split_ifs <;> simp_all [rendersFor]
  · split_ifs <;> simp_all [rendersFor]
  · intro r hr
    have h3 : r = { kind := Kind.pingRoomInfo, payload := c.pingPayload } ∨
        r = { kind := Kind.roomCreate, payload := c.roomCreatePayload } ∨
        r = { kind := Kind.roomList, payload := c.roomListPayload } := by
      split_ifs at hr <;> simp_all <;> tauto
    rcases h3 with h | h | h <;> subst h <;> rfl

/-- Witness for `render_latest_payload_once`: a render fired by a
counter change shows the current payload. -/
theorem render_latest_payload_once_witness :
    ({ kind := Kind.pingRoomInfo, payload := 7 } : Render).payload
      = kindPayload { clvInit with pingResponseOptionsVersion := 1, pingPayload := 7 }
          Kind.pingRoomInfo :=
  (render_latest_payload_once
      { clvInit with pingResponseOptionsVersion := 1, pingPayload := 7 } appStarted).2.2.2.1
    { kind := Kind.pingRoomInfo, payload := 7 } (by decide)

/-- C3 counterexample: a kind whose counter is incremented twice
between two consecutive renderer calls gets one render, not two, so the
renderer does not emit exactly one render per distinct increment. -/
theorem coalesced_increments_cex :
    (runRenderTicks clvInit appStarted
        [{ pingIncs := 2, createIncs := 0, listIncs := 0
           pingPayload := 9, createPayload := 0, listPayload := 0 }]).1.length = 1 ∧
    totalIncrements
        [{ pingIncs := 2, createIncs := 0, listIncs := 0
           pingPayload := 9, createPayload := 0, listPayload := 0 }] = 2 := by
  decide

/-- C3 amended: over any window of ticks starting from a synced state
(last-shown counters equal to the current ones, as right after
clvClientUdpInit), the renderer's cycles are exactly `changesList`:
one render per kind per tick in which that kind's counter value
changed (multiple increments between two renderer calls coalesce into
a single render of the latest payload), in the fixed per-kind order
ping/room-info, room-create, room-list; and after every tick's
renderer call all last-shown counters equal the current ones (the
final state is synced again, and every prefix of the window is covered
by the same statement). -/
theorem renderTicks_refines_changes (c : ClvClientView) (app : App) (ts : List TickIncs)
    (h1 : app.lastShownPingResponseVersion = c.pingResponseOptionsVersion)
    (h2 : app.lastShownRoomCreateVersion = c.roomCreateVersion)
    (h3 : app.lastShownRoomListVersion = c.listRoomsOptionsVersion) :
    (runRenderTicks c app ts).1 = changesList c ts ∧
    (runRenderTicks c app ts).2.2.lastShownPingResponseVersion
      = (runRenderTicks c app ts).2.1.pingResponseOptionsVersion ∧
    (runRenderTicks c app ts).2.2.lastShownRoomCreateVersion
      = (runRenderTicks c app ts).2.1.roomCreateVersion ∧
    (runRenderTicks c app ts).2.2.lastShownRoomListVersion
      = (runRenderTicks c app ts).2.1.listRoomsOptionsVersion := by
  induction ts generalizing c app with
  | nil => exact ⟨rfl, h1, h2, h3⟩
  | cons t ts ih =>
    simp only [runRenderTicks, changesList, outputChangesIfAny_eq, h1, h2, h3]
    have hrest := ih (applyIncs c t)
      { app with lastShownPingResponseVersion := (applyIncs c t).pingResponseOptionsVersion
                 lastShownRoomCreateVersion := (applyIncs c t).roomCreateVersion
                 lastShownRoomListVersion := (applyIncs c t).listRoomsOptionsVersion }
      rfl rfl rfl
    exact ⟨by rw [hrest.1], hrest.2.1, hrest.2.2.1, hrest.2.2.2⟩

/-- Witness for `renderTicks_refines_changes` at the freshly
initialized synced state over a concrete two-tick window. -/
theorem renderTicks_refines_changes_witness :
    (runRenderTicks clvInit appStarted
        [{ pingIncs := 1, createIncs := 0, listIncs := 1
           pingPayload := 4, createPayload := 0, listPayload := 5 },
         { pingIncs := 0, createIncs := 1, listIncs := 0
           pingPayload := 0, createPayload := 6, listPayload := 0 }]).1
      = changesList clvInit
        [{ pingIncs := 1, createIncs := 0, listIncs := 1
           pingPayload := 4, createPayload := 0, listPayload := 5 },
         { pingIncs := 0, createIncs := 1, listIncs := 0
           pingPayload := 0, createPayload := 6, listPayload := 0 }] :=
  (renderTicks_refines_changes clvInit appStarted _ rfl rfl rfl).1

/-- C7 counterexample: dispatch does not trim the line before comparing
against the built-in verbs.  The line " quit" is "quit" preceded by one
whitespace character (so its trim is "quit"), yet it is not treated as
the quit verb: it falls through to the registry and produces a
diagnostic (here with an always-failing registry). -/
theorem dispatch_no_trim_cex :
    " quit".data = ' ' :: "quit".data ∧
    (' ').isWhitespace = true ∧
    dispatchLine (fun _ => -1) " quit" = [DispatchEffect.diagnosticPrinted (-1)] := by
  refine ⟨rfl, rfl, rfl⟩

/-- C7 amended: dispatch compares the completed line exactly as
delivered (no trimming) against "quit" (sets the shutdown flag, no
further processing) and then "help" (renders the command tree without
any registry handler); otherwise it resolves the line against the
registry and the outcome is exactly one handler invocation
(nonnegative result) or exactly one diagnostic with the negative result
code and no handler call — never both and never neither. -/
theorem dispatch_exactly_one (clashParse : String → Int) (line : String) :
    (dispatchLine clashParse line).length = 1 ∧
    (line = "quit" → dispatchLine clashParse line = [DispatchEffect.quitSet]) ∧
    (line = "help" → dispatchLine clashParse line = [DispatchEffect.helpRendered]) ∧
    (line ≠ "quit" → line ≠ "help" →
      (clashParse line < 0 ∧
        dispatchLine clashParse line = [DispatchEffect.diagnosticPrinted (clashParse line)] ∧
        ∀ r, DispatchEffect.handlerInvoked r ∉ dispatchLine clashParse line) ∨
      (0 ≤ clashParse line ∧
        dispatchLine clashParse line = [DispatchEffect.handlerInvoked (clashParse line)] ∧
        ∀ r, DispatchEffect.diagnosticPrinted r ∉ dispatchLine clashParse line)) := by
  refine ⟨?_, ?_, ?_, ?_⟩
  · simp only [dispatchLine]
    split_ifs <;> rfl
  · intro h
    subst h
    simp [dispatchLine]
  · intro h
    subst h
    simp [dispatchLine]
  · intro hq hh
    simp only [dispatchLine, if_neg hq, if_neg hh]
    by_cases hp : clashParse line < 0
    · exact Or.inl ⟨hp, by rw [if_pos hp], by intro r; rw [if_pos hp]; simp⟩
    · exact Or.inr ⟨le_of_not_lt hp, by rw [if_neg hp], by intro r; rw [if_neg hp]; simp⟩

/-- Witness for `dispatch_exactly_one`: "quit" dispatches to the quit
effect alone. -/
theorem dispatch_exactly_one_witness :
    dispatchLine (fun _ => -1) "quit" = [DispatchEffect.quitSet] :=
  (dispatch_exactly_one (fun _ => -1) "quit").2.1 rfl

/-- Line handling never changes the lifecycle flag or the construction
count. -/
theorem lineStep_state (s : LoopState) (t : TickInput) :
    ((lineStep s t).state.hasStartedConclave = s.hasStartedConclave) ∧
    ((lineStep s t).state.constructions = s.constructions) := by
  unfold lineStep
  cases t.line with
  | none => exact ⟨rfl, rfl⟩
  | some line =>
    by_cases hq : line = "quit" <;> simp [hq, StepResult.state]

/-- Line handling never takes the fatal in-loop return. -/
theorem lineStep_ne_fatal (s : LoopState) (t : TickInput) (code : Int) (s' : LoopState) :
    lineStep s t ≠ StepResult.fatalExit code s' := by
  unfold lineStep
  cases t.line with
  | none => simp
  | some line => by_cases hq : line = "quit" <;> simp [hq]

/-- After one tick the lifecycle flag is the old flag or-ed with this
tick's logged-in observation, and the construction count grows by one
exactly when the tick saw identity logged in while conclave was not yet
started. -/
theorem tickStep_state (s : LoopState) (t : TickInput) :
    ((tickStep s t).state.hasStartedConclave = (s.hasStartedConclave || t.loggedIn)) ∧
    ((tickStep s t).state.constructions
      = s.constructions + (if !s.hasStartedConclave && t.loggedIn then 1 else 0)) := by
  unfold tickStep
  by_cases hs : s.hasStartedConclave
  · by_cases ha : t.advanceResult < 0
    · simp [hs, ha, StepResult.state]
    · have h1 := lineStep_state { s with rendererCalls := s.rendererCalls + 1 } t
      simp only [hs, Bool.not_true, Bool.false_and, Bool.true_or, if_false, if_true,
        Bool.false_eq_true, ite_false, ha] at h1 ⊢
      simp [h1.1, h1.2, hs]
  · by_cases hl : t.loggedIn
    · by_cases ha : t.advanceResult < 0
      · simp [hs, hl, ha, StepResult.state]
      · have h1 := lineStep_state
          { s with hasStartedConclave := true, constructions := s.constructions + 1,
                   rendererCalls :=
                     ({ s with hasStartedConclave := true,
                               constructions := s.constructions + 1 } : LoopState).rendererCalls + 1 } t
        simp only [hs, hl, ha] at h1 ⊢
        simp [h1.1, h1.2, hs, hl]
    · have h1 := lineStep_state s t
      simp [hs, hl, h1.1, h1.2]

/-- A fatal step happens only on a negative advance result and carries
that result as the code. -/
theorem tickStep_fatal (s : LoopState) (t : TickInput) (code : Int) (s' : LoopState)
    (h : tickStep s t = StepResult.fatalExit code s') :
    t.advanceResult < 0 ∧ code = t.advanceResult := by
  unfold tickStep at h
  by_cases hs : (if !s.hasStartedConclave && t.loggedIn then
      { s with hasStartedConclave := true, constructions := s.constructions + 1 }
    else s).hasStartedConclave
  · by_cases ha : t.advanceResult < 0
    · simp only [hs, ha, if_true] at h
      exact ⟨ha, by cases h; rfl⟩
    · simp only [hs, ha, if_true, if_false] at h
      exact absurd h (lineStep_ne_fatal _ t code s')
  · simp only [hs] at h
    exact absurd h (lineStep_ne_fatal _ t code s')

/-- C6: on any tick after coordination is initialized, a negative
coordination-advance result makes the whole loop return immediately
with that value: the remaining ticks are never processed, the loop
state (including the renderer-call and dispatch counters) is unchanged,
and the fatal return path does not close the console. -/
theorem advance_failure_fatal (s : LoopState) (t : TickInput) (ts : List TickInput)
    (hq : s.gQuit = false) (hs : s.hasStartedConclave = true) (ha : t.advanceResult < 0) :
    runLoop s (t :: ts) = RunOutcome.finished t.advanceResult false s := by
  unfold runLoop tickStep
  simp [hq, hs, ha]

/-- Witness for `advance_failure_fatal` at a concrete started state and
a failing advance. -/
theorem advance_failure_fatal_witness :
    runLoop { gQuit := false, hasStartedConclave := true
              constructions := 1, rendererCalls := 0, linesDispatched := 0 }
        [{ loggedIn := true, advanceResult := -3, line := none, interrupt := false }]
      = RunOutcome.finished (-3) false
          { gQuit := false, hasStartedConclave := true
            constructions := 1, rendererCalls := 0, linesDispatched := 0 } :=
  advance_failure_fatal _ _ [] rfl rfl (by decide)

/-- Helper for the shutdown theorem, generalized over the start state:
if no processed tick reports a negative coordination-advance result,
any finished run closed the console and returned 0. -/
theorem runLoop_graceful_aux (ts : List TickInput) :
    ∀ s : LoopState, (∀ t ∈ ts, 0 ≤ t.advanceResult) →
      ∀ (code : Int) (closed : Bool) (sF : LoopState),
        runLoop s ts = RunOutcome.finished code closed sF →
        code = 0 ∧ closed = true := by
  induction ts with
  | nil =>
    intro s _ code closed sF hrun
    unfold runLoop at hrun
    by_cases hq : s.gQuit <;> simp [hq] at hrun
    exact ⟨hrun.1.symm, hrun.2.1⟩
  | cons t ts ih =>
    intro s h code closed sF hrun
    unfold runLoop at hrun
    by_cases hq : s.gQuit
    · simp [hq] at hrun
      exact ⟨hrun.1.symm, hrun.2.1⟩
    · simp only [hq, Bool.false_eq_true, if_false, ite_false] at hrun
      cases hstep : tickStep s t with
      | cont s' =>
        rw [hstep] at hrun
        exact ih s' (fun t' ht' => h t' (List.mem_cons_of_mem t ht')) code closed sF hrun
      | fatalExit c s' =>
        have hneg := (tickStep_fatal s t c s' hstep).1
        have hpos := h t (List.mem_cons_self t ts)
        exact absurd hneg (not_lt.mpr hpos)
      | gracefulExit s' =>
        rw [hstep] at hrun
        cases hrun
        exact ⟨rfl, rfl⟩

/-- C8: whenever the process shuts down because "quit" was typed or an
interrupt set the shutdown flag (checked at the top of each tick) — that
is, whenever the run finishes without a fatal coordination-advance
result — the Line Console is closed before process exit and the exit
code is 0; both paths end through the same close-then-return-0
sequence after the loop. -/
theorem graceful_shutdown_closes_console (ts : List TickInput)
    (h : ∀ t ∈ ts, 0 ≤ t.advanceResult)
    (code : Int) (closed : Bool) (sF : LoopState)
    (hrun : runLoop loopInit ts = RunOutcome.finished code closed sF) :
    code = 0 ∧ closed = true :=
  runLoop_graceful_aux ts loopInit h code closed sF hrun

/-- Witness for `graceful_shutdown_closes_console`: a run ended by a
SIGINT-style interrupt finishes with the console closed and exit code
0 (a "quit" line gives the same finished shape). -/
theorem graceful_shutdown_closes_console_witness :
    (0 : Int) = 0 ∧ true = true :=
  graceful_shutdown_closes_console
    [{ loggedIn := false, advanceResult := 0, line := none, interrupt := true }]
    (by decide) 0 true
    { gQuit := true, hasStartedConclave := false
      constructions := 0, rendererCalls := 0, linesDispatched := 0 }
    (by decide)

/-- One tick preserves the invariant "construction count is 1 if
conclave started, else 0". -/
theorem tickStep_consInv (s : LoopState) (t : TickInput)
    (hs : s.constructions = if s.hasStartedConclave then 1 else 0) :
    (tickStep s t).state.constructions
      = if (tickStep s t).state.hasStartedConclave then 1 else 0 := by
  obtain ⟨hf, hc⟩ := tickStep_state s t
  rw [hc, hf]
  by_cases h : s.hasStartedConclave <;> by_cases hl : t.loggedIn <;>
    simp [h, hl] at hs ⊢ <;> omega

/-- The state list of a run always starts with the entry state. -/
theorem loopStates_head (s : LoopState) (ts : List TickInput) :
    (loopStates s ts).head? = some s := by
  cases ts with
  | nil => rfl
  | cons t ts =>
    unfold loopStates
    by_cases hq : s.gQuit
    · simp [hq]
    · cases hstep : tickStep s t <;> simp [hq, hstep]

/-- Every state reached from an entry state satisfying the
construction-count invariant satisfies it too. -/
theorem loopStates_consInv (ts : List TickInput) :
    ∀ s : LoopState, s.constructions = (if s.hasStartedConclave then 1 else 0) →
      ∀ s' ∈ loopStates s ts, s'.constructions = if s'.hasStartedConclave then 1 else 0 := by
  induction ts with
  | nil =>
    intro s hs s' hmem
    simp [loopStates] at hmem
    subst hmem
    exact hs
  | cons t ts ih =>
    intro s hs s' hmem
    unfold loopStates at hmem
    by_cases hq : s.gQuit
    · simp [hq] at hmem
      subst hmem
      exact hs
    · have h1 := tickStep_consInv s t hs
      cases hstep : tickStep s t with
      | cont s1 =>
        rw [hstep] at hmem h1
        simp only [StepResult.state] at h1
        simp only [hq, Bool.false_eq_true, if_false, List.mem_cons] at hmem
        rcases hmem with h | h
        · subst h; exact hs
        · exact ih s1 h1 s' h
      | fatalExit c s1 =>
        rw [hstep] at hmem h1
        simp only [StepResult.state] at h1
        simp [hq] at hmem
        rcases hmem with h | h
        · subst h; exact hs
        · subst h; exact h1
      | gracefulExit s1 =>
        rw [hstep] at hmem h1
        simp only [StepResult.state] at h1
        simp [hq] at hmem
        rcases hmem with h | h
        · subst h; exact hs
        · subst h; exact h1

/-- Along any run, once `hasStartedConclave` is true it stays true:
consecutive reached states are related by flag monotonicity. -/
theorem loopStates_chain (ts : List TickInput) :
    ∀ s : LoopState, List.Chain'
      (fun a b => a.hasStartedConclave = true → b.hasStartedConclave = true)
      (loopStates s ts) := by
  induction ts with
  | nil => intro s; simp [loopStates]
  | cons t ts ih =>
    intro s
    have hflag := (tickStep_state s t).1
    unfold loopStates
    by_cases hq : s.gQuit
    · simp [hq]
    · cases hstep : tickStep s t with
      | cont s1 =>
        rw [hstep] at hflag
        simp only [StepResult.state] at hflag
        simp only [hq, Bool.false_eq_true, if_false]
        refine List.Chain'.cons' (ih s1) ?_
        intro b hb
        rw [loopStates_head] at hb
        cases hb
        intro hstart
        rw [hflag, hstart, Bool.true_or]
      | fatalExit c s1 =>
        rw [hstep] at hflag
        simp only [StepResult.state] at hflag
        simp only [hq, Bool.false_eq_true, if_false]
        refine List.chain'_cons.mpr ⟨?_, List.chain'_singleton s1⟩
        intro hstart
        rw [hflag, hstart, Bool.true_or]
      | gracefulExit s1 =>
        rw [hstep] at hflag
        simp only [StepResult.state] at hflag
        simp only [hq, Bool.false_eq_true, if_false]
        refine List.chain'_cons.mpr ⟨?_, List.chain'_singleton s1⟩
        intro hstart
        rw [hflag, hstart, Bool.true_or]

/-- C5: across every execution the Coordination Session is constructed
exactly once.  Every state reachable from the start state has
construction count 1 when `hasStartedConclave` is set and 0 before
(so never more than one construction); the flag is never reset along
the run; and a tick performs a construction exactly when conclave has
not started yet and identity is observed logged in — i.e. on the first
logged-in tick, and on no later tick whatever identity does. -/
theorem conclave_constructed_once :
    (∀ ts : List TickInput, ∀ s' ∈ loopStates loopInit ts,
        s'.constructions = if s'.hasStartedConclave then 1 else 0) ∧
    (∀ ts : List TickInput, List.Chain'
        (fun a b => a.hasStartedConclave = true → b.hasStartedConclave = true)
        (loopStates loopInit ts)) ∧
    (∀ (s : LoopState) (t : TickInput),
        (tickStep s t).state.constructions
          = s.constructions + (if !s.hasStartedConclave && t.loggedIn then 1 else 0)) :=
  ⟨fun ts => loopStates_consInv ts loopInit rfl,
   fun ts => loopStates_chain ts loopInit,
   fun s t => (tickStep_state s t).2⟩

/-- Witness for `conclave_constructed_once`: after a run of three ticks
whose second tick logs in, the final reached state has exactly one
construction. -/
theorem conclave_constructed_once_witness :
    ({ gQuit := false, hasStartedConclave := true
       constructions := 1, rendererCalls := 3, linesDispatched := 0 } : LoopState).constructions
      = if ({ gQuit := false, hasStartedConclave := true
              constructions := 1, rendererCalls := 3, linesDispatched := 0 } : LoopState).hasStartedConclave
        then 1 else 0 :=
  conclave_constructed_once.1
    [{ loggedIn := false, advanceResult := 0, line := none, interrupt := false },
     { loggedIn := true, advanceResult := 0, line := none, interrupt := false },
     { loggedIn := true, advanceResult := 0, line := none, interrupt := false },
     { loggedIn := true, advanceResult := 0, line := none, interrupt := false }]
    { gQuit := false, hasStartedConclave := true
      constructions := 1, rendererCalls := 3, linesDispatched := 0 }
    (by decide)

end Conclave
